import Mathlib

/-! Verification of the Daegu crime-dashboard scoring logic (`app2.py`).

A shallow embedding of the computational parts of `app2.py`:

* weight normalization (the dict comprehensions at lines 162–165),
* the weighted risk / safety / net score columns (lines 167–169),
* the Pearson correlation call (line 199),
* the `method=min`, descending rank columns of the correlation
  reference view (lines 777–778),
* the error-handling control flow of `load_data` (lines 61–77) and
  `load_correlation_data` (lines 760–783).

Numeric columns are embedded as rationals (`ℚ`); a missing / NaN cell is
`Option.none`.  Python dicts are association lists that preserve insertion
order, as Python dicts do.
-/

namespace Daegu

/-- A factor name (a column header such as `"유흥업소 수"`). -/
abbrev Factor := String

/-- A weight mapping `factor → raw weight`, as a Python dict:
an insertion-ordered association list. -/
abbrev Weights := List (Factor × ℚ)

/-- `sum(weights.values())` — lines 159–160 of `app2.py`. -/
def sumWeights (ws : Weights) : ℚ :=
  (ws.map Prod.snd).sum

/-- The dict comprehension of lines 162–165 of `app2.py`:
`{k: v / total if total > 0 else 0 for k, v in ws.items()}`,
where `total = sum(ws.values())`. -/
def normWeights (ws : Weights) : Weights :=
  ws.map (fun p => (p.1, if sumWeights ws > 0 then p.2 / sumWeights ws else 0))

/-- A district row of the merged `gdf` table.  `values` holds the factor
columns; a `none` entry (or an entirely absent factor key) is a NaN /
missing cell. -/
structure District where
  name : String
  values : List (Factor × Option ℚ)
deriving DecidableEq

/-- Reading the cell `gdf[factor]` of one district: an absent key or a
stored `none` both denote a missing value. -/
def getValue (d : District) (f : Factor) : Option ℚ :=
  match d.values.lookup f with
  | some v => v
  | none => none

/-- `Series.fillna(0)` on one cell — line 167/168 of `app2.py`. -/
def fillna0 (o : Option ℚ) : ℚ := o.getD 0

/-- `sum(gdf[factor].fillna(0) * weight for factor, weight in nws.items())`
for one district — the aggregation of lines 167–168 of `app2.py`. -/
def totalScore (d : District) (nws : Weights) : ℚ :=
  (nws.map (fun p => fillna0 (getValue d p.1) * p.2)).sum

/-- One row of the scored table: the derived columns `총위험도`
(total risk), `총안전도` (total safety) and `순위험도` (net score). -/
structure ScoredRow where
  district : District
  totalRisk : ℚ
  totalSafety : ℚ
  netScore : ℚ
deriving DecidableEq

/-- Lines 167–169 of `app2.py`: normalize the two weight dicts
independently, compute the `총위험도` and `총안전도` columns, then the
`순위험도` column as their difference. -/
def computeScores (table : List District) (riskW safetyW : Weights) :
    List ScoredRow :=
  let nr := normWeights riskW
  let ns := normWeights safetyW
  let withRiskSafety := table.map (fun d => (d, totalScore d nr, totalScore d ns))
  withRiskSafety.map (fun x => ⟨x.1, x.2.1, x.2.2, x.2.1 - x.2.2⟩)

/-! ## Pearson correlation (line 199 of `app2.py`)

`gdf[순위험도].corr(gdf[범죄발생수])` computes the Pearson
coefficient `cov / (σ_X · σ_Y)`; when either standard deviation is zero
the float division yields NaN, embedded here as `Option.none`. -/

/-- Arithmetic mean of a sequence (0 on the empty sequence). -/
def seqMean (xs : List ℚ) : ℚ :=
  if xs.length = 0 then 0 else xs.sum / xs.length

/-- Sum of products of deviations from the means,
`Σ (x - mean xs) * (y - mean ys)` over the zipped pairs. -/
def covSum (xs ys : List ℚ) : ℚ :=
  ((xs.zip ys).map (fun p => (p.1 - seqMean xs) * (p.2 - seqMean ys))).sum

/-- Sum of squared deviations from the mean (variance numerator). -/
def varSum (xs : List ℚ) : ℚ := covSum xs xs

/-- `Series.corr` (Pearson): `cov / (σ_X · σ_Y)`; `none` is the NaN the
float computation produces when the denominator is zero. -/
noncomputable def seriesCorr (xs ys : List ℚ) : Option ℝ :=
  if varSum xs * varSum ys = 0 then none
  else some ((covSum xs ys : ℝ) / Real.sqrt ((varSum xs : ℝ) * (varSum ys : ℝ)))

/-! ## Rank columns of the correlation reference view (lines 777–778)

`Series.rank(method=min, ascending=False).astype(int)`: the rank of a
value is one more than the number of strictly greater values. -/

/-- The `method=min`, `ascending=False` rank of one value within a
column: one plus the number of strictly greater entries. -/
def rankMinDesc (xs : List ℚ) (x : ℚ) : ℕ :=
  1 + (xs.filter (fun y => x < y)).length

/-- A whole rank column, one rank per entry of the column. -/
def rankColumn (xs : List ℚ) : List ℕ :=
  xs.map (rankMinDesc xs)

/-- One row of the merged correlation reference table
(`지역`, `범죄발생수`, `인구수`). -/
structure CorrRow where
  region : String
  crimeCount : ℚ
  population : ℚ
deriving DecidableEq

/-- The `범죄발생수 순위` column of line 777 of `app2.py`. -/
def crimeRankColumn (t : List CorrRow) : List ℕ :=
  rankColumn (t.map (fun r => r.crimeCount))

/-- The `인구수 순위` column of line 778 of `app2.py`. -/
def popRankColumn (t : List CorrRow) : List ℕ :=
  rankColumn (t.map (fun r => r.population))

/-! ## Data loading and error handling (`load_data`, lines 61–77, and
`load_correlation_data`, lines 760–783 of `app2.py`)

The loaders are embedded at the level of column headers and control flow:
a file is its list of column names, a missing file is `none`, a raised
Python exception is `Except.error`, and an `st.error` call is a message
collected in the result.  `load_data` wraps its body in
`try ... except FileNotFoundError`, so a `KeyError` escapes uncaught —
and so does the `DriverError` / `DataSourceError` that `gpd.read_file`
raises on a missing GeoJSON, since that exception class is not a
`FileNotFoundError` either. -/

/-- A loaded tabular / geometric file, abstracted to its column headers. -/
structure DataFile where
  columns : List String
deriving DecidableEq

/-- The static input files the dashboard reads; `none` means the file is
missing on disk. -/
structure FileSystem where
  crimeCsv : Option DataFile
  mapGeojson : Option DataFile
  corrCsv : Option DataFile
deriving DecidableEq

/-- A Python exception raised by a loader.  `driverError` stands for the
`fiona.errors.DriverError` / `pyogrio.errors.DataSourceError` that
`gpd.read_file` raises on a missing path — an exception class distinct
from `FileNotFoundError`. -/
inductive PyExn where
  | fileNotFound (path : String)
  | keyError (key : String)
  | indexError (idx : ℕ)
  | driverError (path : String)
deriving DecidableEq

/-- Outcome of a loader that ran to completion: the `st.error` messages
it emitted and its return value (`none` embeds Python `None`). -/
structure ViewResult (α : Type) where
  messages : List String
  value : Option α
deriving DecidableEq

/-- `pd.read_csv("daegu_crime_data.csv")`: raises `FileNotFoundError`
when the file is absent. -/
def read_crime_csv (fs : FileSystem) : Except PyExn DataFile :=
  match fs.crimeCsv with
  | some f => .ok f
  | none => .error (.fileNotFound "daegu_crime_data.csv")

/-- `gpd.read_file("daegu_map.geojson")`: on a missing path geopandas
raises `DriverError` (fiona engine) or `DataSourceError` (pyogrio
engine), not `FileNotFoundError`. -/
def read_map_file (fs : FileSystem) : Except PyExn DataFile :=
  match fs.mapGeojson with
  | some f => .ok f
  | none => .error (.driverError "daegu_map.geojson")

/-- `pd.read_csv("인구수범죄수상관관계.csv")`. -/
def read_corr_csv (fs : FileSystem) : Except PyExn DataFile :=
  match fs.corrCsv with
  | some f => .ok f
  | none => .error (.fileNotFound "인구수범죄수상관관계.csv")

/-- Accessing `df[c]`: a `KeyError` when the column is absent. -/
def requireColumn (f : DataFile) (c : String) : Except PyExn Unit :=
  if c ∈ f.columns then .ok () else .error (.keyError c)

/-- `df.iloc[:, [i]]` column selection by position: an `IndexError` when
the position is out of range. -/
def nthColumn (f : DataFile) (i : ℕ) : Except PyExn String :=
  match f.columns.get? i with
  | some c => .ok c
  | none => .error (.indexError i)

/-- The `try` body of `load_data` (lines 63–76 of `app2.py`): read the
crime CSV, filter on the `행정동` column (a `KeyError` if it is absent),
read the GeoJSON, then either merge (when `adm_nm` exists) or emit an
`st.error` and return `None`. -/
def load_data_body (fs : FileSystem) : Except PyExn (ViewResult DataFile) := do
  let crime ← read_crime_csv fs
  _ ← requireColumn crime "행정동"
  let geo ← read_map_file fs
  if "adm_nm" ∈ geo.columns then
    pure ⟨[], some ⟨geo.columns ++ ["행정동_키"] ++ crime.columns⟩⟩
  else
    pure ⟨["지도 데이터에서 adm_nm 컬럼을 찾을 수 없습니다."], none⟩

/-- `load_data` (lines 61–77): the body wrapped in
`except FileNotFoundError`, which turns a missing file into an
`st.error` message plus `None` — any other exception escapes. -/
def load_data (fs : FileSystem) : Except PyExn (ViewResult DataFile) :=
  match load_data_body fs with
  | .error (.fileNotFound p) => .ok ⟨["데이터 파일 로딩 오류: " ++ p], none⟩
  | r => r

/-- The `try` body of `load_correlation_data` (lines 762–780): read the
CSV, take columns 0/1 and 3/4 by position, rename `지역.1` to `지역`,
convert the `범죄발생수` and `인구수` columns, and merge on `지역`. -/
def load_correlation_data_body (fs : FileSystem) :
    Except PyExn (ViewResult DataFile) := do
  let df ← read_corr_csv fs
  let c0 ← nthColumn df 0
  let c1 ← nthColumn df 1
  let c3 ← nthColumn df 3
  let c4 ← nthColumn df 4
  let crimeCols := [c0, c1]
  let popCols := [c3, c4].map (fun c => if c = "지역.1" then "지역" else c)
  _ ← requireColumn ⟨crimeCols⟩ "범죄발생수"
  _ ← requireColumn ⟨popCols⟩ "인구수"
  _ ← requireColumn ⟨crimeCols⟩ "지역"
  _ ← requireColumn ⟨popCols⟩ "지역"
  pure ⟨[], some ⟨["지역", "범죄발생수", "인구수", "범죄발생수 순위", "인구수 순위"]⟩⟩

/-- `load_correlation_data` (lines 760–783): the body wrapped in
`except FileNotFoundError`, which turns a missing file into an
`st.error` message plus an empty DataFrame. -/
def load_correlation_data (fs : FileSystem) : Except PyExn (ViewResult DataFile) :=
  match load_correlation_data_body fs with
  | .error (.fileNotFound _) =>
      .ok ⟨["인구수범죄수상관관계.csv 파일을 찾을 수 없습니다."], some ⟨[]⟩⟩
  | r => r

/-! ## Sample data used by the witnesses -/

/-- Sample district with two risk cells and one safety cell. -/
def sampleDistrictA : District :=
  ⟨"A", [("risk1", some 10), ("risk2", some 0), ("s1", some 8)]⟩

/-- Sample district whose `"s1"` cell is missing (NaN). -/
def sampleDistrictB : District :=
  ⟨"B", [("risk1", some 0), ("risk2", some 10), ("s1", none)]⟩

/-! ## C1 — net score is exactly risk minus safety -/

/-- **C1.** For every district table and every pair of weight mappings,
each row of the scored table satisfies `순위험도 = 총위험도 − 총안전도`
exactly. -/
theorem c1_netScore_eq_risk_sub_safety
    (table : List District) (rw sw : Weights) (row : ScoredRow)
    (hrow : row ∈ computeScores table rw sw) :
    row.netScore = row.totalRisk - row.totalSafety := by
  simp only [computeScores, List.map_map, List.mem_map, Function.comp] at hrow
  obtain ⟨d, _, rfl⟩ := hrow
  rfl

/-- Witness for C1 at a concrete one-district table. -/
theorem c1_witness :
    (⟨sampleDistrictA, 10, 8, 2⟩ : ScoredRow).netScore =
      (⟨sampleDistrictA, 10, 8, 2⟩ : ScoredRow).totalRisk -
        (⟨sampleDistrictA, 10, 8, 2⟩ : ScoredRow).totalSafety :=
  c1_netScore_eq_risk_sub_safety [sampleDistrictA] [("risk1", 1)] [("s1", 1)]
    ⟨sampleDistrictA, 10, 8, 2⟩ (by
      simp [computeScores, normWeights, sumWeights, totalScore, getValue,
        fillna0, sampleDistrictA, List.lookup]
      norm_num)

/-! ## C2 — normalization divides by the own sum of the mapping -/

/-- **C2.** When the raw weights sum to a positive value, every
normalized weight is the raw weight divided by the own sum of that mapping;
and in the scored table the risk column is a function of the risk
mapping alone while the safety column is a function of the safety
mapping alone (no shared denominator). -/
theorem c2_normWeights_div_own_sum
    (ws : Weights) (hpos : 0 < sumWeights ws)
    (table : List District) (rw sw : Weights) :
    normWeights ws = ws.map (fun p => (p.1, p.2 / sumWeights ws)) ∧
    (computeScores table rw sw).map (fun r => r.totalRisk)
        = table.map (fun d => totalScore d (normWeights rw)) ∧
    (computeScores table rw sw).map (fun r => r.totalSafety)
        = table.map (fun d => totalScore d (normWeights sw)) := by
  refine ⟨?_, ?_, ?_⟩
  · simp [normWeights, hpos]
  · simp [computeScores, List.map_map]
  · simp [computeScores, List.map_map]

/-- Witness for C2 at a concrete two-factor mapping. -/
theorem c2_witness :
    normWeights [("risk1", (1 : ℚ)), ("risk2", 1)]
        = [("risk1", (1 : ℚ)), ("risk2", 1)].map
            (fun p => (p.1, p.2 / sumWeights [("risk1", (1 : ℚ)), ("risk2", 1)])) ∧
    (computeScores [sampleDistrictA] [("risk1", (1 : ℚ))] [("s1", (1 : ℚ))]).map
        (fun r => r.totalRisk)
      = [sampleDistrictA].map (fun d => totalScore d (normWeights [("risk1", (1 : ℚ))])) ∧
    (computeScores [sampleDistrictA] [("risk1", (1 : ℚ))] [("s1", (1 : ℚ))]).map
        (fun r => r.totalSafety)
      = [sampleDistrictA].map (fun d => totalScore d (normWeights [("s1", (1 : ℚ))])) :=
  c2_normWeights_div_own_sum [("risk1", (1 : ℚ)), ("risk2", 1)]
    (by norm_num [sumWeights])
    [sampleDistrictA] [("risk1", (1 : ℚ))] [("s1", (1 : ℚ))]

/-! ## C3 — all-zero weights are handled without error -/

/-- **C3.** When every raw weight of a mapping is zero, normalization
produces all zeros (no division-by-zero is raised) and the aggregate
score the mapping contributes is `0` for every district. -/
theorem c3_allZero_weights
    (ws : Weights) (hz : ∀ p ∈ ws, p.2 = 0) (d : District) :
    (∀ p ∈ normWeights ws, p.2 = 0) ∧ totalScore d (normWeights ws) = 0 := by
  have hsum : sumWeights ws = 0 := by
    apply List.sum_eq_zero
    intro x hx
    obtain ⟨p, hp, rfl⟩ := List.mem_map.mp hx
    exact hz p hp
  have hnorm : ∀ p ∈ normWeights ws, p.2 = 0 := by
    intro p hp
    obtain ⟨q, _, rfl⟩ := List.mem_map.mp hp
    simp [hsum]
  refine ⟨hnorm, ?_⟩
  apply List.sum_eq_zero
  intro x hx
  obtain ⟨p, hp, rfl⟩ := List.mem_map.mp hx
  rw [hnorm p hp, mul_zero]

/-- Witness for C3 at a concrete all-zero mapping. -/
theorem c3_witness :
    (∀ p ∈ normWeights [("risk1", (0 : ℚ)), ("risk2", 0)], p.2 = 0) ∧
    totalScore sampleDistrictA (normWeights [("risk1", (0 : ℚ)), ("risk2", 0)]) = 0 :=
  c3_allZero_weights [("risk1", (0 : ℚ)), ("risk2", 0)] (by simp) sampleDistrictA

/-! ## C5 — normalization is scale invariant -/

/-- Multiplying every raw weight of a mapping by a constant `c`
(the transformation quantified over by the scale-invariance claim). -/
def scaleWeights (c : ℚ) (ws : Weights) : Weights :=
  ws.map (fun p => (p.1, c * p.2))

/-- The raw-weight sum scales with the mapping. -/
theorem sumWeights_scaleWeights (c : ℚ) (ws : Weights) :
    sumWeights (scaleWeights c ws) = c * sumWeights ws := by
  simp [sumWeights, scaleWeights, List.map_map, Function.comp_def,
    List.sum_map_mul_left]

/-- **C5.** Scaling every raw weight of a mapping by a positive constant
`c` leaves the normalized mapping unchanged, and hence leaves the
aggregate score of every district unchanged. -/
theorem c5_scale_invariant
    (ws : Weights) (c : ℚ) (hc : 0 < c) (d : District) :
    normWeights (scaleWeights c ws) = normWeights ws ∧
    totalScore d (normWeights (scaleWeights c ws))
        = totalScore d (normWeights ws) := by
  have hnorm : normWeights (scaleWeights c ws) = normWeights ws := by
    unfold normWeights
    rw [sumWeights_scaleWeights]
    unfold scaleWeights
    rw [List.map_map]
    apply List.map_congr_left
    intro p _
    simp only [Function.comp_def]
    by_cases hpos : 0 < sumWeights ws
    · rw [if_pos (mul_pos hc hpos), if_pos hpos,
        mul_div_mul_left p.2 (sumWeights ws) (ne_of_gt hc)]
    · rw [if_neg (fun hcon => hpos (by nlinarith)), if_neg hpos]
  exact ⟨hnorm, by rw [hnorm]⟩

/-- Witness for C5 at `c = 3` on a concrete mapping. -/
theorem c5_witness :
    normWeights (scaleWeights 3 [("risk1", (1 : ℚ)), ("risk2", 2)])
        = normWeights [("risk1", (1 : ℚ)), ("risk2", 2)] ∧
    totalScore sampleDistrictA
        (normWeights (scaleWeights 3 [("risk1", (1 : ℚ)), ("risk2", 2)]))
      = totalScore sampleDistrictA (normWeights [("risk1", (1 : ℚ)), ("risk2", 2)]) :=
  c5_scale_invariant [("risk1", (1 : ℚ)), ("risk2", 2)] 3 (by norm_num)
    sampleDistrictA

/-! ## C6 — a missing / NaN cell contributes exactly zero -/

/-- **C6.** A factor whose cell is absent or NaN is read back as exactly
`0` by `fillna(0)`, so adding that factor to a weight mapping leaves the
aggregate score of the district untouched: its contribution is zero and no
error is raised. -/
theorem c6_nan_contributes_zero
    (d : District) (ws : Weights) (f : Factor) (w : ℚ)
    (habs : getValue d f = none) :
    fillna0 (getValue d f) = 0 ∧
    totalScore d ((f, w) :: ws) = totalScore d ws := by
  refine ⟨by simp [fillna0, habs], ?_⟩
  simp [totalScore, fillna0, habs]

/-- Witness for C6 at the district whose `"s1"` cell is NaN. -/
theorem c6_witness :
    fillna0 (getValue sampleDistrictB "s1") = 0 ∧
    totalScore sampleDistrictB [("s1", (1 : ℚ)), ("risk2", 1)]
        = totalScore sampleDistrictB [("risk2", (1 : ℚ))] :=
  c6_nan_contributes_zero sampleDistrictB [("risk2", (1 : ℚ))] "s1" 1
    (by simp [getValue, sampleDistrictB, List.lookup])

/-! ## C9 — normalized weights stay inside [0, 1] -/

/-- **C9.** For a weight mapping with non-negative raw weights (as the
sliders of lines 140–154 guarantee), every normalized weight lies in
`[0, 1]`; the bound holds for the output of every recomputation of
`normWeights`. -/
theorem c9_normWeights_unit_interval
    (ws : Weights) (hnn : ∀ p ∈ ws, 0 ≤ p.2)
    (p : Factor × ℚ) (hp : p ∈ normWeights ws) :
    0 ≤ p.2 ∧ p.2 ≤ 1 := by
  obtain ⟨q, hq, rfl⟩ := List.mem_map.mp hp
  by_cases hpos : 0 < sumWeights ws
  · simp only [hpos, if_pos]
    constructor
    · exact div_nonneg (hnn q hq) hpos.le
    · rw [div_le_one hpos]
      apply List.single_le_sum (l := ws.map Prod.snd)
      · intro x hx
        obtain ⟨r, hr, rfl⟩ := List.mem_map.mp hx
        exact hnn r hr
      · exact List.mem_map.mpr ⟨q, hq, rfl⟩
  · simp [hpos]

/-- Witness for C9 at a concrete slider-range mapping. -/
theorem c9_witness :
    0 ≤ (("risk1", (1 : ℚ) / 3) : Factor × ℚ).2 ∧
    (("risk1", (1 : ℚ) / 3) : Factor × ℚ).2 ≤ 1 :=
  c9_normWeights_unit_interval [("risk1", (1 : ℚ)), ("risk2", 2)]
    (by norm_num) ("risk1", (1 : ℚ) / 3)
    (by simp [normWeights, sumWeights]; norm_num)

/-! ## C8 — zero variance yields NaN, not an exception -/

/-- **C8.** For equal-length sequences, if either one has zero variance
the Pearson coefficient of line 199 is undefined (`none`, the NaN the
float division produces) rather than a raised division-by-zero. -/
theorem c8_zero_variance_undefined
    (xs ys : List ℚ) (_hlen : xs.length = ys.length)
    (hvar : varSum xs = 0 ∨ varSum ys = 0) :
    seriesCorr xs ys = none := by
  unfold seriesCorr
  rcases hvar with h | h <;> simp [h]

/-- Witness for C8 at a constant sequence. -/
theorem c8_witness : seriesCorr [1, 1] [1, 2] = none :=
  c8_zero_variance_undefined [1, 1] [1, 2] rfl
    (Or.inl (by norm_num [varSum, covSum, seqMean]))

/-! ## C10 — `method=min`, descending rank columns -/

/-- A value at least as large as every entry of a column receives the
minimum possible rank, 1. -/
theorem rankMinDesc_top (xs : List ℚ) (x : ℚ) (h : ∀ y ∈ xs, y ≤ x) :
    rankMinDesc xs x = 1 := by
  unfold rankMinDesc
  have hnil : xs.filter (fun y => decide (x < y)) = [] := by
    apply List.filter_eq_nil_iff.mpr
    intro y hy
    simp [not_lt.mpr (h y hy)]
  rw [hnil]
  rfl

/-- Counting entries above `w` splits, when no entry lies strictly
between `w` and `x`, into the entries above `x` and the entries equal to
`x`. -/
theorem count_gt_split (xs : List ℚ) (x w : ℚ) (hwx : w < x)
    (hgap : ∀ y ∈ xs, w < y → x ≤ y) :
    (xs.filter (fun z => decide (w < z))).length
      = (xs.filter (fun z => decide (x < z))).length
        + (xs.filter (fun z => decide (z = x))).length := by
  induction xs with
  | nil => rfl
  | cons a t ih =>
    have iht := ih (fun y hy => hgap y (List.mem_cons_of_mem a hy))
    by_cases hwa : w < a
    · have hxa : x ≤ a := hgap a (List.mem_cons_self a t) hwa
      rcases eq_or_lt_of_le hxa with heq | hlt
      · have hna : ¬ x < a := by
          rw [← heq]
          exact lt_irrefl x
        simp only [List.filter_cons, decide_eq_true_eq]
        rw [if_pos hwa, if_neg hna, if_pos heq.symm]
        simp only [List.length_cons, iht]
        omega
      · simp only [List.filter_cons, decide_eq_true_eq]
        rw [if_pos hwa, if_pos hlt, if_neg (ne_of_gt hlt)]
        simp only [List.length_cons, iht]
        omega
    · have hxna : ¬ x < a := fun hcon => hwa (lt_trans hwx hcon)
      have hane : ¬ a = x := fun hcon => hwa (hcon ▸ hwx)
      simp only [List.filter_cons, decide_eq_true_eq]
      rw [if_neg hwa, if_neg hxna, if_neg hane]
      exact iht

/-- With a k-way tie at `x`, the next distinct smaller value `w`
receives rank `rank(x) + k`: the k−1 ranks after `rank(x)` are
skipped. -/
theorem rankMinDesc_skip (xs : List ℚ) (x w : ℚ) (hwx : w < x)
    (hgap : ∀ y ∈ xs, w < y → x ≤ y) :
    rankMinDesc xs w
      = rankMinDesc xs x + (xs.filter (fun z => decide (z = x))).length := by
  unfold rankMinDesc
  rw [count_gt_split xs x w hwx hgap]
  omega

/-- Concrete correlation reference table for the witnesses: two regions
tied on crime count, two tied on population. -/
def sampleCorrTable : List CorrRow :=
  [⟨"a", 5, 100⟩, ⟨"b", 7, 100⟩, ⟨"c", 7, 50⟩]

/-- **C10.** Each rank column of the correlation reference view assigns,
to each entry, one plus the number of strictly greater entries of that
column (`method=min`, descending): a value at least as large as the
whole column receives rank 1, tied values receive identical ranks, and a
k-way tie at `x` makes the next distinct smaller value `w` receive
`rank(x) + k`, skipping k−1 integer ranks.  Stated for the crime-count
column (at `x`, `w`) and the population column (at `xp`, `wp`). -/
theorem c10_rank_columns (t : List CorrRow) (x w xp wp : ℚ) :
    crimeRankColumn t
        = (t.map (fun r => r.crimeCount)).map
            (rankMinDesc (t.map (fun r => r.crimeCount))) ∧
    popRankColumn t
        = (t.map (fun r => r.population)).map
            (rankMinDesc (t.map (fun r => r.population))) ∧
    ((∀ y ∈ t.map (fun r => r.crimeCount), y ≤ x) →
      rankMinDesc (t.map (fun r => r.crimeCount)) x = 1) ∧
    (w < x → (∀ y ∈ t.map (fun r => r.crimeCount), w < y → x ≤ y) →
      rankMinDesc (t.map (fun r => r.crimeCount)) w
        = rankMinDesc (t.map (fun r => r.crimeCount)) x
          + ((t.map (fun r => r.crimeCount)).filter
              (fun z => decide (z = x))).length) ∧
    ((∀ y ∈ t.map (fun r => r.population), y ≤ xp) →
      rankMinDesc (t.map (fun r => r.population)) xp = 1) ∧
    (wp < xp → (∀ y ∈ t.map (fun r => r.population), wp < y → xp ≤ y) →
      rankMinDesc (t.map (fun r => r.population)) wp
        = rankMinDesc (t.map (fun r => r.population)) xp
          + ((t.map (fun r => r.population)).filter
              (fun z => decide (z = xp))).length) :=
  ⟨rfl, rfl,
    rankMinDesc_top _ x,
    fun hwx hgap => rankMinDesc_skip _ x w hwx hgap,
    rankMinDesc_top _ xp,
    fun hwx hgap => rankMinDesc_skip _ xp wp hwx hgap⟩

/-- Witness for C10 on the concrete reference table: crime ranks are
`[3, 1, 1]` (the tie at 7 takes rank 1 and rank 2 is skipped) and
population ranks are `[1, 1, 3]`. -/
theorem c10_witness :
    rankMinDesc (sampleCorrTable.map (fun r => r.crimeCount)) 7 = 1 ∧
    rankMinDesc (sampleCorrTable.map (fun r => r.crimeCount)) 5
      = rankMinDesc (sampleCorrTable.map (fun r => r.crimeCount)) 7
        + ((sampleCorrTable.map (fun r => r.crimeCount)).filter
            (fun z => decide (z = 7))).length ∧
    rankMinDesc (sampleCorrTable.map (fun r => r.population)) 100 = 1 ∧
    rankMinDesc (sampleCorrTable.map (fun r => r.population)) 50
      = rankMinDesc (sampleCorrTable.map (fun r => r.population)) 100
        + ((sampleCorrTable.map (fun r => r.population)).filter
            (fun z => decide (z = 100))).length := by
  have T := c10_rank_columns sampleCorrTable 7 5 100 50
  refine ⟨T.2.2.1 ?_, T.2.2.2.1 (by norm_num) ?_, T.2.2.2.2.1 ?_,
    T.2.2.2.2.2 (by norm_num) ?_⟩ <;>
    · intro y hy
      simp [sampleCorrTable] at hy
      rcases hy with rfl | rfl | rfl <;> norm_num

/-! ## C7 — error taxonomy: what is surfaced and what escapes -/

/-- Input files exhibiting the uncovered failure: the crime CSV exists
but lacks its `행정동` join-key column. -/
def fsMissingJoinKey : FileSystem :=
  ⟨some ⟨["구분"]⟩, some ⟨["adm_nm"]⟩, none⟩

/-- All three input files missing. -/
def fsAllMissing : FileSystem := ⟨none, none, none⟩

/-- Crime CSV present and well-keyed, map file missing. -/
def fsNoMap : FileSystem := ⟨some ⟨["행정동"]⟩, none, none⟩

/-- Both main files present but the map data lacks `adm_nm`. -/
def fsNoAdm : FileSystem := ⟨some ⟨["행정동"]⟩, some ⟨["name"]⟩, none⟩

/-- **C7, counterexample.** A missing `행정동` column in the crime CSV is
a missing expected column (the crime-side join key), yet it is not
surfaced as a user-visible message: `load_data` only catches
`FileNotFoundError`, so the `KeyError` raised by the column access at
line 66 escapes as a crash. -/
theorem c7_counterexample :
    load_data fsMissingJoinKey = .error (.keyError "행정동") := by
  rfl

/-- **C7, amended.** The files read through `pd.read_csv` — the crime
CSV and the correlation CSV — raise `FileNotFoundError` when missing,
which the loaders catch and surface as `st.error` messages, with the
computation short-circuited to `None` (main loader) resp. an empty
DataFrame (correlation loader); a missing `adm_nm` column in the map
data is likewise surfaced as a message; and the load of the correlation
view depends only on its own input file, so main-view failures cannot
affect it.  By contrast, a missing `행정동` column in the crime CSV
escapes as an uncaught `KeyError` (see the counterexample), and a
missing map GeoJSON escapes as the uncaught `DriverError` /
`DataSourceError` of `gpd.read_file`, which the
`except FileNotFoundError` clause at line 75 does not catch either. -/
theorem c7_amended (fs fs' : FileSystem) (crime geo : DataFile) :
    (fs.crimeCsv = none →
      load_data fs
        = .ok ⟨["데이터 파일 로딩 오류: daegu_crime_data.csv"], none⟩) ∧
    (fs.crimeCsv = some crime → "행정동" ∈ crime.columns →
      fs.mapGeojson = none →
      load_data fs = .error (.driverError "daegu_map.geojson")) ∧
    (fs.crimeCsv = some crime → "행정동" ∈ crime.columns →
      fs.mapGeojson = some geo → "adm_nm" ∉ geo.columns →
      load_data fs
        = .ok ⟨["지도 데이터에서 adm_nm 컬럼을 찾을 수 없습니다."], none⟩) ∧
    (fs.corrCsv = none →
      load_correlation_data fs
        = .ok ⟨["인구수범죄수상관관계.csv 파일을 찾을 수 없습니다."], some ⟨[]⟩⟩) ∧
    (fs.corrCsv = fs'.corrCsv →
      load_correlation_data fs = load_correlation_data fs') := by
  refine ⟨?_, ?_, ?_, ?_, ?_⟩
  · intro h
    simp [load_data, load_data_body, read_crime_csv, h, bind, Except.bind]
  · intro hc hkey hm
    simp [load_data, load_data_body, read_crime_csv, read_map_file,
      requireColumn, hc, hkey, hm, bind, Except.bind]
  · intro hc hkey hm hadm
    simp [load_data, load_data_body, read_crime_csv, read_map_file,
      requireColumn, hc, hkey, hm, hadm, bind, Except.bind, pure, Except.pure]
  · intro h
    simp [load_correlation_data, load_correlation_data_body, read_corr_csv, h,
      bind, Except.bind]
  · intro h
    unfold load_correlation_data load_correlation_data_body read_corr_csv
    rw [h]

/-- Witness for C7 (amended) at concrete file systems. -/
theorem c7_witness :
    load_data fsAllMissing
        = .ok ⟨["데이터 파일 로딩 오류: daegu_crime_data.csv"], none⟩ ∧
    load_data fsNoMap = .error (.driverError "daegu_map.geojson") ∧
    load_data fsNoAdm
        = .ok ⟨["지도 데이터에서 adm_nm 컬럼을 찾을 수 없습니다."], none⟩ ∧
    load_correlation_data fsAllMissing
        = .ok ⟨["인구수범죄수상관관계.csv 파일을 찾을 수 없습니다."], some ⟨[]⟩⟩ ∧
    load_correlation_data fsAllMissing = load_correlation_data fsNoAdm := by
  refine ⟨(c7_amended fsAllMissing fsAllMissing ⟨["행정동"]⟩ ⟨["name"]⟩).1 rfl,
    (c7_amended fsNoMap fsNoMap ⟨["행정동"]⟩ ⟨["name"]⟩).2.1 rfl (by simp) rfl,
    (c7_amended fsNoAdm fsNoAdm ⟨["행정동"]⟩ ⟨["name"]⟩).2.2.1 rfl (by simp)
      rfl (by simp),
    (c7_amended fsAllMissing fsAllMissing ⟨["행정동"]⟩ ⟨["name"]⟩).2.2.2.1 rfl,
    (c7_amended fsAllMissing fsNoAdm ⟨["행정동"]⟩ ⟨["name"]⟩).2.2.2.2 rfl⟩

end Daegu
